import Mathlib

/-!
Shallow embedding of the task-board backend's telemetry subsystem and task
handlers (Go sources: the OTel metrics file, the route-handler file,
`main.go` and `db.go`). Machine integers are modelled as `Int`/`Nat`; gauge
instruments (`Int64UpDownCounter`) are modelled as an `Int` accumulator that
`Add` mutates; counters and histograms are modelled as emission lists so that
"exactly one increment/observation" is expressible. Fallible Go calls are
modelled with `Option`/`Bool` error flags, and a Go `panic` that unwinds a
function is modelled as an exceptional outcome that skips the statements
after the call that panicked.
-/

namespace TaskBoard

/-- The task record (fields as used by the handlers and GORM model:
an auto-assigned id, a title and a completed flag; `created_at` ordering
is not needed by any property proved here). -/
structure Task where
  id : Nat
  title : String
  completed : Bool
deriving DecidableEq, Repr

/-- The persistence layer: the list of stored tasks plus the next
auto-increment primary key. -/
structure Store where
  tasks : List Task
  nextId : Nat
deriving DecidableEq, Repr

/-- `DB.Model(&Task{}).Count(&totalCount)` — total number of stored tasks. -/
def countTasks (s : Store) : Nat := s.tasks.length

/-- `DB.Model(&Task{}).Where("completed = ?", true).Count(&completedCount)`. -/
def countCompleted (s : Store) : Nat := (s.tasks.filter (fun t => t.completed)).length

/-- `DB.First(&task, id)` — the first stored task with the given primary key. -/
def findTask (s : Store) (id : Nat) : Option Task :=
  s.tasks.find? (fun u => u.id == id)

/-- `DB.Create(&task)` — insert with the next auto-increment id. -/
def createTaskRecord (s : Store) (title : String) : Store × Task :=
  let t : Task := { id := s.nextId, title := title, completed := false }
  ({ tasks := s.tasks ++ [t], nextId := s.nextId + 1 }, t)

/-- `DB.Save(&task)` — write back a record by primary key. -/
def saveTask (s : Store) (t : Task) : Store :=
  { s with tasks := s.tasks.map (fun u => if u.id == t.id then t else u) }

/-- `DB.Delete(&Task{}, id)` — delete by primary key (no error when absent). -/
def deleteTaskRecord (s : Store) (id : Nat) : Store :=
  { s with tasks := s.tasks.filter (fun u => u.id != id) }

/-- The up/down-counter (gauge) instruments of the program, each an `Int`
accumulator mutated by `Add`: `taskCount` (`tasks_total`),
`completedTaskCount` (`tasks_completed_total`), `memoryUsage`
(`memory_usage_bytes`), `goroutineCount` (`goroutine_count`) and
`dbConnectionsOpen` (`db_connections_open`). -/
structure Gauges where
  taskCount : Int
  completedTaskCount : Int
  memoryUsage : Int
  goroutineCount : Int
  dbConnectionsOpen : Int
deriving DecidableEq, Repr

/-- `UpdateTaskMetrics`: counts total tasks, does
`taskCount.Add(ctx, -totalCount)` then `taskCount.Add(ctx, totalCount)`,
counts completed tasks, then does the same pair of adds on
`completedTaskCount`. -/
def UpdateTaskMetrics (s : Store) (g : Gauges) : Gauges :=
  let totalCount : Int := countTasks s
  let g := { g with taskCount := g.taskCount + (-totalCount) }
  let g := { g with taskCount := g.taskCount + totalCount }
  let completedCount : Int := countCompleted s
  let g := { g with completedTaskCount := g.completedTaskCount + (-completedCount) }
  let g := { g with completedTaskCount := g.completedTaskCount + completedCount }
  g

/-- `UpdateTaskInput`: both fields are pointers in Go, hence optional. -/
structure UpdateTaskInput where
  title : Option String
  completed : Option Bool
deriving DecidableEq, Repr

/-- Result of running one route handler: the store after its DB writes, the
HTTP status it responded with, and whether it executed
`go UpdateTaskMetrics(...)` (the asynchronous metrics refresh). -/
structure HandlerResult where
  store : Store
  status : Nat
  goUpdateTaskMetrics : Bool
deriving DecidableEq, Repr

/-- `getTasks`: queries all tasks via `TrackDBOperation`; on DB error responds
500 and returns; otherwise runs `go UpdateTaskMetrics` and responds 200.
`dbErr` models the wrapped `Find` returning a non-nil error. -/
def getTasks (s : Store) (dbErr : Bool) : HandlerResult :=
  if dbErr then { store := s, status := 500, goUpdateTaskMetrics := false }
  else { store := s, status := 200, goUpdateTaskMetrics := true }

/-- `createTask`: `input` is the `ShouldBindJSON` result (`none` = bind
failure, 400); `dbErr` models `DB.Create` failing (500); on success the
record is inserted, `go UpdateTaskMetrics` runs and the status is 201. -/
def createTask (s : Store) (input : Option String) (dbErr : Bool) : HandlerResult :=
  match input with
  | none => { store := s, status := 400, goUpdateTaskMetrics := false }
  | some title =>
    if dbErr then { store := s, status := 500, goUpdateTaskMetrics := false }
    else
      let (s, _t) := createTaskRecord s title
      { store := s, status := 201, goUpdateTaskMetrics := true }

/-- Lines 95–101 of the handler file: copy each input field onto the found
task only when it is present. -/
def applyUpdateInput (task : Task) (input : UpdateTaskInput) : Task :=
  let task := match input.title with
    | some t => { task with title := t }
    | none => task
  let task := match input.completed with
    | some c => { task with completed := c }
    | none => task
  task

/-- `updateTask`: parse id (400 on failure), `First` the task (404 when not
found), bind the JSON input (400 on failure), overwrite only the provided
fields, `Save` (500 when `saveErr`), then `go UpdateTaskMetrics` and 200. -/
def updateTask (s : Store) (idParam : Option Nat) (input : Option UpdateTaskInput)
    (saveErr : Bool) : HandlerResult :=
  match idParam with
  | none => { store := s, status := 400, goUpdateTaskMetrics := false }
  | some id =>
    match findTask s id with
    | none => { store := s, status := 404, goUpdateTaskMetrics := false }
    | some task =>
      match input with
      | none => { store := s, status := 400, goUpdateTaskMetrics := false }
      | some inp =>
        let task := applyUpdateInput task inp
        if saveErr then { store := s, status := 500, goUpdateTaskMetrics := false }
        else { store := saveTask s task, status := 200, goUpdateTaskMetrics := true }

/-- `deleteTask`: parse id (400 on failure), `Delete` by id (500 when
`dbErr`), then `go UpdateTaskMetrics` and 204. -/
def deleteTask (s : Store) (idParam : Option Nat) (dbErr : Bool) : HandlerResult :=
  match idParam with
  | none => { store := s, status := 400, goUpdateTaskMetrics := false }
  | some id =>
    if dbErr then { store := s, status := 500, goUpdateTaskMetrics := false }
    else { store := deleteTaskRecord s id, status := 204, goUpdateTaskMetrics := true }

/-- Outcome of the downstream handler pipeline as seen from
`MetricsMiddleware`'s `c.Next()`: either it returns normally with a final
response status, or it panics (the panic unwinds the middleware frame, so
every statement after `c.Next()` is skipped; gin's `Recovery` middleware,
installed earlier in the chain, catches it above). -/
inductive Outcome where
  | completed (status : Nat)
  | panicked
deriving DecidableEq, Repr

/-- Middleware-visible instrument state: the `http_active_requests` gauge
plus the emission lists of the request-size histogram, the
`http_requests_total` counter, the latency histogram and the response-size
histogram (each tagged as in the source). -/
structure MWState where
  activeRequests : Int
  requestSizeObs : List (String × String × Int)
  requestCountEmits : List (String × String × Nat)
  latencyObs : List (String × String × Nat)
  responseSizeObs : List (String × String × Nat)
deriving DecidableEq, Repr

/-- An inbound HTTP request as the middleware reads it. -/
structure HttpRequest where
  method : String
  path : String
  contentLength : Int
deriving DecidableEq, Repr

/-- `MetricsMiddleware`: increments `activeRequests`, records the request
size when `ContentLength > 0`, calls `c.Next()`, and — only when `c.Next()`
returns normally — emits the request counter, latency and response-size
observations and decrements `activeRequests`. The decrement is a plain
statement after `c.Next()`, not a `defer`, so a panic skips it. -/
def MetricsMiddleware (st : MWState) (req : HttpRequest) (handler : Outcome) :
    MWState × Outcome :=
  let st := { st with activeRequests := st.activeRequests + 1 }
  let st := if req.contentLength > 0
    then { st with requestSizeObs := st.requestSizeObs ++ [(req.method, req.path, req.contentLength)] }
    else st
  match handler with
  | .panicked => (st, .panicked)
  | .completed status =>
    let st := { st with requestCountEmits := st.requestCountEmits ++ [(req.method, req.path, status)] }
    let st := { st with latencyObs := st.latencyObs ++ [(req.method, req.path, status)] }
    let st := { st with responseSizeObs := st.responseSizeObs ++ [(req.method, req.path, status)] }
    let st := { st with activeRequests := st.activeRequests - 1 }
    (st, .completed status)

/-- Emission state of the two DB instruments: each `dbOperations.Add(ctx, 1, operation)`
appends `(operation, 1)`, each `dbOperationLatency.Record` tagged
`(operation, success)` appends that pair. -/
structure DBEmissions where
  dbOperationsIncs : List (String × Int)
  dbLatencyObs : List (String × Bool)
deriving DecidableEq, Repr

/-- `TrackDBOperation`: increments the operation counter (tagged with the
operation), runs `f`, records one latency observation tagged with the
operation and `success = (err == nil)`, and returns `err` as is. The wrapped
work returns `none` for a nil error and `some msg` otherwise. -/
def TrackDBOperation (em : DBEmissions) (operation : String) (f : Unit → Option String) :
    DBEmissions × Option String :=
  let em := { em with dbOperationsIncs := em.dbOperationsIncs ++ [(operation, 1)] }
  let err := f ()
  let em := { em with dbLatencyObs := em.dbLatencyObs ++ [(operation, err.isNone)] }
  (em, err)

/-- Values read from the runtime during one tick of `collectSystemMetrics`:
`memStats.Alloc`, and the three separate `runtime.NumGoroutine()` calls the
tick body makes (two inside the first `Add`'s argument, one in the second). -/
structure SysReads where
  allocBytes : Nat
  numGoroutine1 : Nat
  numGoroutine2 : Nat
  numGoroutine3 : Nat
deriving DecidableEq, Repr

/-- One tick of `collectSystemMetrics` (15-second ticker):
`memoryUsage.Add(ctx, Alloc)`, then
`goroutineCount.Add(ctx, NumGoroutine() - NumGoroutine())`, then
`goroutineCount.Add(ctx, NumGoroutine())`. -/
def collectSystemMetricsTick (r : SysReads) (g : Gauges) : Gauges :=
  let g := { g with memoryUsage := g.memoryUsage + (r.allocBytes : Int) }
  let g := { g with goroutineCount := g.goroutineCount + ((r.numGoroutine1 : Int) - (r.numGoroutine2 : Int)) }
  let g := { g with goroutineCount := g.goroutineCount + (r.numGoroutine3 : Int) }
  g

/-- One tick of `trackDBConnections` (10-second ticker):
`dbConnectionsOpen.Add(ctx, -OpenConnections)`, then
`dbConnectionsOpen.Add(ctx, OpenConnections)`, then a zero-valued `Add`
carrying the idle/in-use/max attributes. -/
def trackDBConnectionsTick (openConnections : Nat) (g : Gauges) : Gauges :=
  let g := { g with dbConnectionsOpen := g.dbConnectionsOpen + (-(openConnections : Int)) }
  let g := { g with dbConnectionsOpen := g.dbConnectionsOpen + (openConnections : Int) }
  let g := { g with dbConnectionsOpen := g.dbConnectionsOpen + 0 }
  g

/-- One tick of any periodic background loop the program starts (`main`
launches exactly `collectSystemMetrics` and `trackDBConnections`). -/
inductive PeriodicTick where
  | system (r : SysReads)
  | dbConn (openConnections : Nat)
deriving DecidableEq, Repr

/-- Effect of one periodic tick on the gauges. -/
def runPeriodicTick : PeriodicTick → Gauges → Gauges
  | .system r, g => collectSystemMetricsTick r g
  | .dbConn n, g => trackDBConnectionsTick n g

/-- The two provider shutdown closures returned by `initTracer` and
`initMetrics`. -/
inductive ShutdownCall where
  | tracerShutdown
  | metricsShutdown
deriving DecidableEq, BEq, Repr

/-- `main` executes `defer shutdownTracer()` and then
`defer shutdownMetrics()`, in that textual order: this is the defer stack in
push order. -/
def mainDeferredShutdowns : List ShutdownCall :=
  [ShutdownCall.tracerShutdown, ShutdownCall.metricsShutdown]

/-- Go runs deferred calls in last-in-first-out order when `main` returns. -/
def runDeferred (stack : List ShutdownCall) : List ShutdownCall := stack.reverse

/-- The order in which the two provider shutdowns actually execute. -/
def shutdownSequence : List ShutdownCall := runDeferred mainDeferredShutdowns

/-- Instrument kinds used by `initializeMetrics`. -/
inductive InstrumentKind where
  | int64Counter
  | float64Histogram
  | int64Histogram
  | int64UpDownCounter
deriving DecidableEq, BEq, Repr

/-- One registered instrument: name, kind, description and the `WithUnit`
string, exactly as passed to the meter. -/
structure Instrument where
  name : String
  kind : InstrumentKind
  description : String
  unitStr : String
deriving DecidableEq, BEq, Repr

/-- The twelve instruments registered by `initializeMetrics`, in source
order, with the exact name, kind, description and unit strings. -/
def registeredInstruments : List Instrument :=
  [ ⟨"http_requests_total", .int64Counter, "Total number of HTTP requests", "{request}"⟩,
    ⟨"http_request_duration_seconds", .float64Histogram, "HTTP request duration in seconds", "s"⟩,
    ⟨"http_request_size_bytes", .int64Histogram, "HTTP request size in bytes", "By"⟩,
    ⟨"http_response_size_bytes", .int64Histogram, "HTTP response size in bytes", "By"⟩,
    ⟨"http_active_requests", .int64UpDownCounter, "Number of active HTTP requests", "{request}"⟩,
    ⟨"db_operations_total", .int64Counter, "Total number of database operations", "{operation}"⟩,
    ⟨"db_operation_duration_seconds", .float64Histogram, "Duration of database operations in seconds", "s"⟩,
    ⟨"db_connections_open", .int64UpDownCounter, "Number of open database connections", "{connection}"⟩,
    ⟨"tasks_total", .int64UpDownCounter, "Total number of tasks in the system", "{task}"⟩,
    ⟨"tasks_completed_total", .int64UpDownCounter, "Number of completed tasks", "{task}"⟩,
    ⟨"memory_usage_bytes", .int64UpDownCounter, "Memory usage of the application in bytes", "By"⟩,
    ⟨"goroutine_count", .int64UpDownCounter, "Number of goroutines", "{goroutine}"⟩ ]

/-- Modelled from the spec: the exported-metrics list of section 6, as
name/unit pairs in the spec's order, for comparison with
`registeredInstruments`. -/
def specMetricNameUnits : List (String × String) :=
  [ ("http_requests_total", "{request}"),
    ("http_request_duration_seconds", "s"),
    ("http_request_size_bytes", "bytes"),
    ("http_response_size_bytes", "bytes"),
    ("http_active_requests", "{request}"),
    ("db_operations_total", "{operation}"),
    ("db_operation_duration_seconds", "s"),
    ("db_connections_open", "{connection}"),
    ("tasks_total", "{task}"),
    ("tasks_completed_total", "{task}"),
    ("memory_usage_bytes", "bytes"),
    ("goroutine_count", "{goroutine}") ]

/-- The syntactic context of one call to `UpdateTaskMetrics`. -/
inductive TriggerContext where
  | startupCall
  | requestHandler (mutating : Bool)
  | periodicLoop (intervalSeconds : Nat)
deriving DecidableEq, BEq, Repr

/-- One call site of `UpdateTaskMetrics`. -/
structure RefreshCallSite where
  location : String
  context : TriggerContext
deriving DecidableEq, BEq, Repr

/-- Every call site of `UpdateTaskMetrics` in the program: the synchronous
startup call in `main`, the `go UpdateTaskMetrics` calls in the four route
handlers, and the synchronous calls in the two mutating debug endpoints.
No background ticker loop calls it. -/
def updateTaskMetricsCallSites : List RefreshCallSite :=
  [ ⟨"main startup", .startupCall⟩,
    ⟨"getTasks", .requestHandler false⟩,
    ⟨"createTask", .requestHandler true⟩,
    ⟨"updateTask", .requestHandler true⟩,
    ⟨"deleteTask", .requestHandler true⟩,
    ⟨"debug generate-tasks", .requestHandler true⟩,
    ⟨"debug clear-tasks", .requestHandler true⟩ ]

/-- Whether a trigger context is a periodic (fixed-schedule) one. -/
def isPeriodicContext : TriggerContext → Bool
  | .periodicLoop _ => true
  | _ => false

/-! ## Helper lemmas -/

/-- `applyUpdateInput` keeps the id and takes each field from the input when
present, otherwise from the existing task. -/
theorem applyUpdateInput_eq (t : Task) (inp : UpdateTaskInput) :
    applyUpdateInput t inp =
      { id := t.id, title := inp.title.getD t.title,
        completed := inp.completed.getD t.completed } := by
  rcases t with ⟨i, ti, c⟩
  rcases inp with ⟨ht, hc⟩
  cases ht <;> cases hc <;> rfl

/-- Replacing, by id, the element that `find?` locates makes `find?` return
the replacement. -/
theorem find?_map_replace (l : List Task) (id : Nat) (t newT : Task)
    (hfind : l.find? (fun u => u.id == id) = some t) (hid : newT.id = id) :
    (l.map (fun u => if u.id == newT.id then newT else u)).find? (fun u => u.id == id)
      = some newT := by
  induction l with
  | nil => simp at hfind
  | cons a l ih =>
    by_cases ha : a.id = id
    · simp [List.find?, ha, hid]
    · have hb : (a.id == id) = false := by simp [ha]
      have hb' : (a.id == newT.id) = false := by simp [hid, ha]
      simp only [List.find?, hb] at hfind
      simp only [List.map, List.find?, hb', Bool.false_eq_true, if_false, hb]
      exact ih hfind

/-! ## Claim theorems -/

/-- C1: the create-then-refresh scenario at a concrete input. After creating
one task in an empty store, the direct query gives total 1 and completed 0,
but the refreshed `tasks_total` gauge stays 0 — each `UpdateTaskMetrics`
refresh adds `-count` then `+count`, a net change of zero. After marking the
task completed, the true completed count is 1 but `tasks_completed_total`
also stays 0: the gauges never converge to the queried counts. -/
theorem updateTaskMetrics_gauges_stay_zero_on_scenario :
    (let s0 : Store := { tasks := [], nextId := 1 }
     let g0 : Gauges := ⟨0, 0, 0, 0, 0⟩
     let r1 := createTask s0 (some "demo") false
     let g1 := UpdateTaskMetrics r1.store g0
     let r2 := updateTask r1.store (some 1)
       (some { title := none, completed := some true }) false
     let g2 := UpdateTaskMetrics r2.store g1
     countTasks r1.store = 1 ∧ g1.taskCount = 0 ∧ g1.completedTaskCount = 0 ∧
       countCompleted r2.store = 1 ∧ g2.taskCount = 0 ∧ g2.completedTaskCount = 0) := by
  decide

/-- C2: at a concrete request whose downstream handler panics, the middleware
increments `http_active_requests`, the panic unwinds past the statements
after `c.Next()` (the decrement is not deferred), and the gauge ends at
baseline + 1 instead of returning to the baseline 0; the same request
completing normally does return the gauge to 0. -/
theorem metricsMiddleware_panic_leaks_active_requests :
    (MetricsMiddleware ⟨0, [], [], [], []⟩ ⟨"GET", "/api/tasks", 0⟩ .panicked).1.activeRequests = 1 ∧
    (MetricsMiddleware ⟨0, [], [], [], []⟩ ⟨"GET", "/api/tasks", 0⟩ (.completed 200)).1.activeRequests = 0 := by
  decide

/-- C3 counterexample: in the shutdown sequence that actually executes, the
trace-provider shutdown does not run before the metric-provider shutdown —
`main` defers `shutdownTracer` first, and Go runs deferred calls
last-in-first-out, so `shutdownMetrics` runs first. -/
theorem shutdown_tracer_not_before_metrics :
    ¬ (shutdownSequence.indexOf ShutdownCall.tracerShutdown <
       shutdownSequence.indexOf ShutdownCall.metricsShutdown) := by
  decide

/-- C3 amended: at every shutdown the metric-provider shutdown call runs and
completes before the trace-provider shutdown call begins, since deferred
calls execute sequentially in last-in-first-out order. -/
theorem shutdown_metrics_before_tracer :
    shutdownSequence.indexOf ShutdownCall.metricsShutdown <
      shutdownSequence.indexOf ShutdownCall.tracerShutdown := by
  decide

/-- C4: every `TrackDBOperation` invocation appends exactly one increment
`(operation, 1)` to the db-operations counter and exactly one observation
`(operation, success)` to the latency histogram, whatever the wrapped `f`
returns, and the success tag is `true` exactly when `f` returned a nil
error. -/
theorem trackDBOperation_emits_once (em : DBEmissions) (op : String)
    (f : Unit → Option String) :
    (TrackDBOperation em op f).1.dbOperationsIncs = em.dbOperationsIncs ++ [(op, 1)] ∧
    (TrackDBOperation em op f).1.dbLatencyObs = em.dbLatencyObs ++ [(op, (f ()).isNone)] :=
  ⟨rfl, rfl⟩

/-- C5: concrete failing ticks. With 100 previously published bytes and a
fresh heap reading of 100, a process-sampler tick leaves `memory_usage_bytes`
at 200, not 100 (it adds the reading on top of the old value); with 8
goroutines previously published and 8 currently live it leaves
`goroutine_count` at 16, not 8 (what it subtracts is a second fresh reading,
not the previously published value); with 5 previously published open
connections and 7 currently open, a pool-sampler tick leaves
`db_connections_open` at 5, not 7 (it subtracts the fresh reading it is
about to add, a net zero). -/
theorem sampler_ticks_not_clear_then_set :
    (collectSystemMetricsTick ⟨100, 8, 8, 8⟩ ⟨0, 0, 100, 8, 5⟩).memoryUsage = 200 ∧
    (collectSystemMetricsTick ⟨100, 8, 8, 8⟩ ⟨0, 0, 100, 8, 5⟩).goroutineCount = 16 ∧
    (trackDBConnectionsTick 7 ⟨0, 0, 100, 8, 5⟩).dbConnectionsOpen = 5 := by
  decide

/-- C6 counterexample: no call site of `UpdateTaskMetrics` is inside a
periodic loop — the domain-count refresh has no fixed schedule of its own,
so it is not "also triggered periodically". -/
theorem no_periodic_task_metrics_refresh :
    ¬ ∃ cs ∈ updateTaskMetricsCallSites, isPeriodicContext cs.context = true := by
  decide

/-- C6 amended: the domain-count refresh is triggered after every successful
mutating request — the create, update and delete handlers all launch
`go UpdateTaskMetrics` on their success paths — and also at startup, after
GET and after the debug mutations, but it has no periodic schedule of its
own: every call site is the startup call or a request-handler call. -/
theorem task_metrics_refresh_triggers (s : Store) (title : String)
    (idP : Option Nat) (inp : Option UpdateTaskInput) (sErr : Bool) (i : Nat)
    (hupd : (updateTask s idP inp sErr).status = 200) :
    (createTask s (some title) false).goUpdateTaskMetrics = true ∧
    (updateTask s idP inp sErr).goUpdateTaskMetrics = true ∧
    (deleteTask s (some i) false).goUpdateTaskMetrics = true ∧
    updateTaskMetricsCallSites.all (fun cs => !isPeriodicContext cs.context) = true := by
  refine ⟨rfl, ?_, rfl, by decide⟩
  rcases idP with _ | id
  · simp [updateTask] at hupd
  · rcases hf : findTask s id with _ | t
    · simp [updateTask, hf] at hupd
    · rcases inp with _ | inp
      · simp [updateTask, hf] at hupd
      · cases sErr
        · simp [updateTask, hf]
        · simp [updateTask, hf] at hupd

/-- Witness for the C6 amended theorem at a concrete store and update. -/
theorem task_metrics_refresh_triggers_witness :
    (updateTask { tasks := [{ id := 1, title := "a", completed := false }], nextId := 2 }
        (some 1) (some { title := none, completed := some true }) false).status = 200 ∧
    ((createTask { tasks := [{ id := 1, title := "a", completed := false }], nextId := 2 }
        (some "b") false).goUpdateTaskMetrics = true ∧
      (updateTask { tasks := [{ id := 1, title := "a", completed := false }], nextId := 2 }
        (some 1) (some { title := none, completed := some true }) false).goUpdateTaskMetrics = true ∧
      (deleteTask { tasks := [{ id := 1, title := "a", completed := false }], nextId := 2 }
        (some 1) false).goUpdateTaskMetrics = true ∧
      updateTaskMetricsCallSites.all (fun cs => !isPeriodicContext cs.context) = true) :=
  ⟨rfl, task_metrics_refresh_triggers _ "b" _ _ _ 1 rfl⟩

/-- C7: `TrackDBOperation` returns the wrapped unit of work's result
unchanged — the error value it returns is exactly the one `f` produced. -/
theorem trackDBOperation_returns_error_unchanged (em : DBEmissions) (op : String)
    (f : Unit → Option String) :
    (TrackDBOperation em op f).2 = f () := rfl

/-- C8 counterexample: the registered name/unit pairs differ from the spec's
list at a concrete position — `http_request_size_bytes` is registered with
unit "By" where the spec's list says "bytes". -/
theorem registered_units_differ_from_spec :
    registeredInstruments.map (fun i => (i.name, i.unitStr)) ≠ specMetricNameUnits ∧
    (registeredInstruments.map (fun i => (i.name, i.unitStr)))[2]? =
      some ("http_request_size_bytes", "By") ∧
    specMetricNameUnits[2]? = some ("http_request_size_bytes", "bytes") := by
  decide

/-- C8 amended: the twelve registered instrument names match the spec's list
exactly and in order, and every unit string matches the spec's unit except
that the three byte-valued instruments (`http_request_size_bytes`,
`http_response_size_bytes`, `memory_usage_bytes`) are registered with the
UCUM unit "By" where the spec's list writes "bytes". -/
theorem registered_names_match_spec_units_modulo_byte_unit :
    registeredInstruments.map Instrument.name = specMetricNameUnits.map Prod.fst ∧
    (registeredInstruments.zip specMetricNameUnits).all
      (fun p => p.1.unitStr == p.2.2 || (p.2.2 == "bytes" && p.1.unitStr == "By")) = true := by
  decide

/-- C9: updating an existing task modifies only the fields present in the
input: the stored task after `updateTask` keeps its id, takes the title from
the input when provided and keeps the previous title otherwise, and likewise
for the completed flag. -/
theorem updateTask_preserves_absent_fields (s : Store) (id : Nat) (t : Task)
    (inp : UpdateTaskInput) (h : findTask s id = some t) :
    findTask (updateTask s (some id) (some inp) false).store id =
      some { id := t.id, title := inp.title.getD t.title,
             completed := inp.completed.getD t.completed } := by
  have hfind : s.tasks.find? (fun u => u.id == id) = some t := h
  have hti : t.id = id := by
    have hp := List.find?_some hfind
    simpa using hp
  simp only [updateTask, h, if_neg (by simp : ¬ false = true)]
  rw [applyUpdateInput_eq]
  simp only [findTask, saveTask]
  exact find?_map_replace s.tasks id t
    { id := t.id, title := inp.title.getD t.title,
      completed := inp.completed.getD t.completed } hfind hti

/-- Witness for C9 at a concrete store: with the title absent and
`completed = true` provided, the stored task keeps its title and flips only
the flag. -/
theorem updateTask_preserves_absent_fields_witness :
    findTask (⟨[⟨1, "old", false⟩], 2⟩ : Store) 1 = some ⟨1, "old", false⟩ ∧
    findTask (updateTask (⟨[⟨1, "old", false⟩], 2⟩ : Store) (some 1)
      (some ⟨none, some true⟩) false).store 1 = some ⟨1, "old", true⟩ :=
  ⟨rfl, updateTask_preserves_absent_fields ⟨[⟨1, "old", false⟩], 2⟩ 1
    ⟨1, "old", false⟩ ⟨none, some true⟩ rfl⟩

/-- C10: every successful GET /api/tasks launches `go UpdateTaskMetrics` —
the asynchronous domain-count refresh — and responds 200, while a failed
query responds 500 without launching it. -/
theorem getTasks_triggers_refresh (s : Store) :
    (getTasks s false).goUpdateTaskMetrics = true ∧ (getTasks s false).status = 200 ∧
    (getTasks s true).goUpdateTaskMetrics = false :=
  ⟨rfl, rfl, rfl⟩

end TaskBoard
